import Mathlib

/-
  Verification development for MotionWall (src/motionwall.c), the
  monitor-aware background supervisor.  The C globals and per-window
  state are shallowly embedded as Lean structures; the external world
  (fork results, signal outcomes, /proc reads, the X server) is
  modelled by explicit oracle parameters, so every supervisor routine
  becomes a pure state transformer that mirrors the C control flow.
-/

/- Data model, mirroring the C structs.  A C fixed-size array together
   with its separate element count is modelled as a total function
   from Nat plus a count field; pids (pid_t) are Int, with 0 meaning
   "no process" and fork failure reported as a negative value. -/

/- struct playlist (motionwall.c lines 100-107). -/
structure Playlist where
  paths : Nat → String
  count : Nat
  current : Nat
  duration : Int
  shuffle : Bool
  loop : Bool

/- struct monitor_info (motionwall.c lines 86-92). -/
structure MonitorInfo where
  name : String
  x : Int
  y : Int
  width : Nat
  height : Nat
  primary : Bool
  connected : Bool

/- struct monitor_setup (motionwall.c lines 94-98). -/
structure MonitorSetup where
  monitors : Nat → MonitorInfo
  count : Nat
  primary_index : Int

/- struct window_info (motionwall.c lines 109-127); only the X11
   handles that the supervisor logic branches on are kept (the X
   `window` handle, with None = 0). -/
structure WindowInfo where
  window : Nat
  monitor_id : Int
  x : Int
  y : Int
  width : Nat
  height : Nat
  player_pid : Int
  fade_pid : Int
  player_active : Bool
  fade_active : Bool
  player_start_time : Int
  needs_resize : Bool
  monitor_playlist : Option Playlist
  playlist_index : Nat

/- The parts of motionwall_config (motionwall.c lines 129-146) that the
   supervisor routines under verification read. -/
structure Config where
  multi_monitor : Bool
  seamless_transitions : Bool
  per_monitor_content : Bool
  playlist_mode : Bool
  media_playlist : Playlist
  windows : List WindowInfo

/- playlist_next (motionwall.c lines 1344-1357).  rand() is modelled by
   the caller-supplied draw `rng`; `current = rand() % count` in the
   shuffle branch, `(current + 1) % count` otherwise, and the whole
   call is a no-op when count <= 1. -/
def playlist_next (rng : Nat) (pl : Playlist) : Playlist :=
  if pl.count ≤ 1 then pl
  else if pl.shuffle = true then { pl with current := rng % pl.count }
  else { pl with current := (pl.current + 1) % pl.count }

/- monitor_playlist_next (motionwall.c lines 1360-1381), per-window
   body: the window-index bounds check is done by the caller models;
   a missing or size-<=1 monitor playlist means no-op. -/
def monitor_playlist_next (rng : Nat) (win : WindowInfo) : WindowInfo :=
  match win.monitor_playlist with
  | none => win
  | some mp =>
    if mp.count ≤ 1 then win
    else if mp.shuffle = true then
      { win with monitor_playlist := some { mp with current := rng % mp.count } }
    else
      { win with monitor_playlist := some { mp with current := (mp.current + 1) % mp.count } }

/- Iterated global advance: apply playlist_next n times, feeding draw
   number i of the stream `rng` to the i-th application. -/
def playlist_iter (rng : Nat → Nat) : Nat → Playlist → Playlist
  | 0, pl => pl
  | n + 1, pl => playlist_next (rng n) (playlist_iter rng n pl)

/- terminate_player (motionwall.c lines 445-474), per-window body.
   The SIGTERM, the 300ms wait, the liveness re-check (modelled by
   `stillAlive`, which only decides whether SIGKILL is also sent) and
   the non-blocking waitpid have no effect on supervisor state; the
   process-table entry is cleared unconditionally at the end of the
   active branch, whatever the signals did. -/
def terminate_player (stillAlive : Bool) (win : WindowInfo) : WindowInfo :=
  if win.player_active = true ∧ 0 < win.player_pid then
    { win with player_pid := 0, player_active := false, player_start_time := 0 }
  else win

/- terminate_player with the window-index bounds check of motionwall.c
   lines 446-448 (a Nat index also covers the `window_index < 0` arm). -/
def terminate_player_at (stillAlive : Bool) (ws : List WindowInfo) (i : Nat) :
    List WindowInfo :=
  match ws.get? i with
  | some w => ws.set i (terminate_player stillAlive w)
  | none => ws

/- terminate_fade_process (motionwall.c lines 477-502), per-window
   body; like terminate_player it clears the fade slot regardless of
   signal outcome, and touches nothing else. -/
def terminate_fade_process (stillAlive : Bool) (win : WindowInfo) : WindowInfo :=
  if win.fade_active = true ∧ 0 < win.fade_pid then
    { win with fade_pid := 0, fade_active := false }
  else win

/- Oracle for the OS-facing effects of the player supervisor: the
   verdict of is_process_healthy for a given pid, the liveness
   re-check inside the terminate routines, the result of fork()
   (positive child pid on success, negative on failure; the 0 return
   happens only inside the child, which execs away and is not part of
   the supervisor state), and the current time(NULL). -/
structure SupEnv where
  healthy : Int → Bool
  stillAlive : Bool
  forkRes : Int
  now : Int

/- Content selection of start_media_player (motionwall.c lines
   1177-1199): the monitor-specific playlist when per-monitor content
   is on and that playlist is non-empty, else the global playlist when
   non-empty, else nothing. -/
def selectFile (cfg : Config) (win : WindowInfo) : Option String :=
  match win.monitor_playlist with
  | some mp =>
    if cfg.per_monitor_content = true ∧ 0 < mp.count then some (mp.paths mp.current)
    else if 0 < cfg.media_playlist.count then
      some (cfg.media_playlist.paths cfg.media_playlist.current)
    else none
  | none =>
    if 0 < cfg.media_playlist.count then
      some (cfg.media_playlist.paths cfg.media_playlist.current)
    else none

/- Spawn phase of start_media_player (motionwall.c lines 1196-1341):
   no file or an invalid window aborts with the state unchanged; a
   successful fork records pid / active / start time; a failed fork
   clears all three.  The argv construction (lines 1206-1295) has no
   state effect and its two overflow guards are statically
   unreachable (the fixed argument lists stay far below MAX_CMD_ARGS
   and a window id prints in at most 19 characters), so they are not
   modelled. -/
def start_media_player_spawn (env : SupEnv) (cfg : Config) (win : WindowInfo) :
    WindowInfo :=
  match selectFile cfg win with
  | none => win
  | some _ =>
    if win.window = 0 then win
    else if 0 < env.forkRes then
      { win with player_pid := env.forkRes, player_active := true,
                 player_start_time := env.now }
    else
      { win with player_pid := 0, player_active := false, player_start_time := 0 }

/- start_media_player (motionwall.c lines 1155-1341), per-window body:
   an already-active healthy player short-circuits; an active but
   unhealthy player is terminated first; then the spawn phase runs.
   The post-fork sleep(3) and advisory health probe (lines 1326-1334)
   change no state. -/
def start_media_player (env : SupEnv) (cfg : Config) (win : WindowInfo) : WindowInfo :=
  if win.player_active = true ∧ 0 < win.player_pid then
    if env.healthy win.player_pid = true then win
    else start_media_player_spawn env cfg (terminate_player env.stillAlive win)
  else start_media_player_spawn env cfg win

/- Long-runtime re-check of check_and_restart_players (motionwall.c
   lines 692-706): after 600 seconds an unhealthy player is terminated
   and respawned, and the start timestamp is refreshed either way. -/
def timeout_check (env : SupEnv) (cfg : Config) (w : WindowInfo) : WindowInfo :=
  if w.player_active = true ∧ 0 < w.player_start_time ∧
      600 < env.now - w.player_start_time then
    let w2 := if env.healthy w.player_pid = false then
        start_media_player env cfg (terminate_player env.stillAlive w)
      else w
    { w2 with player_start_time := env.now }
  else w

/- Health/resize/respawn phase of check_and_restart_players
   (motionwall.c lines 647-689): a dead player's slot is reaped and
   cleared then respawned; a healthy player on a resized window is
   terminated and respawned with the resize flag cleared; a window
   with no active player but a valid handle gets a fresh player. -/
def restart_phase (env : SupEnv) (cfg : Config) (win : WindowInfo) : WindowInfo :=
  if win.player_active = true ∧ 0 < win.player_pid then
    if env.healthy win.player_pid = false then
      start_media_player env cfg
        { win with player_pid := 0, player_active := false, player_start_time := 0 }
    else if win.needs_resize = true then
      { start_media_player env cfg (terminate_player env.stillAlive win) with
          needs_resize := false }
    else win
  else if win.player_active = false ∧ win.window ≠ 0 then
    start_media_player env cfg win
  else win

/- check_and_restart_players (motionwall.c lines 641-708), per-window
   body.  A player inside its 5-second start-up grace window is left
   alone entirely (the C `continue` skips the timeout re-check too);
   otherwise the health/resize phase runs followed by the 600-second
   timeout re-check. -/
def check_and_restart_player (env : SupEnv) (cfg : Config) (win : WindowInfo) :
    WindowInfo :=
  if win.player_active = true ∧ 0 < win.player_pid ∧ 0 < win.player_start_time ∧
      env.now - win.player_start_time < 5 then
    win
  else
    timeout_check env cfg (restart_phase env cfg win)

/- Initialisation of a window slot in create_window_for_monitor
   (motionwall.c lines 1074-1088): the slot is zeroed and the geometry
   copied from the monitor; `created` is the XCreateWindow result
   (0 = None on failure, in which case the slot still holds the
   cleared player fields). -/
def init_window_info (monId : Int) (mx my : Int) (mw mh : Nat) (created : Nat) :
    WindowInfo :=
  { window := created, monitor_id := monId, x := mx, y := my, width := mw,
    height := mh, player_pid := 0, fade_pid := 0, player_active := false,
    fade_active := false, player_start_time := 0, needs_resize := false,
    monitor_playlist := none, playlist_index := 0 }

/- Result of kill(pid, 0).  POSIX allows kill to fail only with
   EINVAL, EPERM or ESRCH, and signal 0 is always valid, so the C
   fall-through for "other errors" (motionwall.c line 384-385) is dead
   code and exactly these three outcomes are modelled. -/
inductive KillZeroResult where
  | success
  | permDenied
  | noSuchProcess
deriving DecidableEq

/- Oracle for the /proc identity probes of is_process_healthy: whether
   the /proc/PID/exe readlink succeeded and whether the resolved name
   matched a known player (the basename strstr tests for mpv / mplayer
   / vlc or the configured player path, lines 393-409), and the same
   for the /proc/PID/cmdline fallback (lines 411-437). -/
structure ProcProbe where
  killResult : KillZeroResult
  exeReadable : Bool
  exeMatches : Bool
  cmdlineReadable : Bool
  cmdlineMatches : Bool

/- is_process_healthy (motionwall.c lines 372-442).  Non-positive pids
   are unhealthy; ESRCH from kill(pid,0) means the process is gone;
   EPERM means it exists but is protected, which counts as healthy;
   after a successful kill probe every identity-check path, matching
   or not, ends in `true` (the final "in case of doubt assume it is
   fine" return at line 441). -/
def is_process_healthy (pid : Int) (p : ProcProbe) : Bool :=
  if pid ≤ 0 then false
  else
    match p.killResult with
    | .noSuchProcess => false
    | .permDenied => true
    | .success =>
      if p.exeReadable = true ∧ p.exeMatches = true then true
      else if p.cmdlineReadable = true ∧ p.cmdlineMatches = true then true
      else true

/- A kill(pid,0) probe reports an existing process exactly when it
   does not fail with ESRCH. -/
def processExists (p : ProcProbe) : Prop :=
  p.killResult ≠ KillZeroResult.noSuchProcess

/- Positional geometry comparison of one monitor pair inside
   check_monitor_changes (motionwall.c lines 266-277): only x, y,
   width and height are compared; name, primary and connected are not
   read. -/
def monGeomDiff (o n : MonitorInfo) : Bool :=
  o.x != n.x || o.y != n.y || o.width != n.width || o.height != n.height

/- Comparison core of check_monitor_changes (motionwall.c lines
   262-288): `old` is the stored config.monitors snapshot and `new2`
   the freshly detected one (the detection half, lines 218-260, is
   X-server input and enters the model as the `new2` argument).
   Changed iff the counts differ or some index-matched pair differs in
   geometry. -/
def check_monitor_changes (old new2 : MonitorSetup) : Bool :=
  if old.count ≠ new2.count then true
  else (List.range new2.count).any fun i =>
    monGeomDiff (old.monitors i) (new2.monitors i)

/- The monitor-diff predicate as the spec sentence words it ("true iff
   counts differ or any matched monitor differs in
   geometry/connectivity"), written from the spec for comparison with
   the code's comparison above. -/
def spec_monitor_diff (old new2 : MonitorSetup) : Prop :=
  old.count ≠ new2.count ∨
    ∃ i, i < new2.count ∧
      ((old.monitors i).x ≠ (new2.monitors i).x ∨
       (old.monitors i).y ≠ (new2.monitors i).y ∨
       (old.monitors i).width ≠ (new2.monitors i).width ∨
       (old.monitors i).height ≠ (new2.monitors i).height ∨
       (old.monitors i).connected ≠ (new2.monitors i).connected)

/- Oracle for start_fade_transition's world effects: whether the
   temporary script file could be created, the fork() result for the
   script runner, the pid read back from /tmp/motionwall_new_pid_N
   (none when the file is missing or fscanf fails), the liveness
   re-checks inside the two terminate routines, and time(NULL). -/
structure FadeEnv where
  scriptOk : Bool
  forkRes : Int
  newPid : Option Int
  stillAlive : Bool
  fadeStillAlive : Bool
  now : Int

/- State reached right after the stale-preload cleanup at the top of
   start_fade_transition (motionwall.c lines 526-528): any active fade
   process is terminated before anything else happens. -/
def fade_after_stale_terminate (env : FadeEnv) (win : WindowInfo) : WindowInfo :=
  if win.fade_active = true then terminate_fade_process env.fadeStillAlive win
  else win

/- Pid-file handling of start_fade_transition (motionwall.c lines
   608-632), applied to the state w2 that records the fade slot: when
   the pid file yields a positive pid, the old primary player is
   terminated (under the same active-and-positive guard as the C) and
   the preloaded pid is promoted into the primary slot with a fresh
   start time; otherwise nothing changes. -/
def fade_promote (env : FadeEnv) (w2 : WindowInfo) : WindowInfo :=
  match env.newPid with
  | some np =>
    if 0 < np then
      { (if w2.player_active = true ∧ 0 < w2.player_pid then
          terminate_player env.stillAlive w2
        else w2) with
        player_pid := np, player_active := true, player_start_time := env.now }
    else w2
  | none => w2

/- start_fade_transition (motionwall.c lines 519-637), per-window body
   (the caller-side index bounds are part of the same guard as
   `seamless`).  After the stale-preload cleanup: an invalid window or
   missing next file aborts; failing to create the script aborts; a
   successful fork records the fade slot, the pid-file promotion runs,
   and finally the fade slot is cleaned up again.  A failed fork
   (negative return) changes nothing, mirroring the missing
   else-branch at line 637. -/
def start_fade_transition (env : FadeEnv) (seamless : Bool)
    (nextFile : Option String) (win : WindowInfo) : WindowInfo :=
  if seamless = false then win
  else if (fade_after_stale_terminate env win).window = 0 ∨ nextFile = none then
    fade_after_stale_terminate env win
  else if env.scriptOk = false then
    fade_after_stale_terminate env win
  else if 0 < env.forkRes then
    terminate_fade_process env.fadeStillAlive
      (fade_promote env
        { fade_after_stale_terminate env win with
            fade_pid := env.forkRes, fade_active := true })
  else fade_after_stale_terminate env win

/- Fade-process events performed by one start_fade_transition call, in
   program order, derived from the same guards as the state
   transformer above: an optional kill of the stale preload (the inner
   terminate_fade_process only signals when fade_active and a positive
   fade_pid are recorded), then - if the call reaches the fork and it
   succeeds - one spawn followed by the final cleanup kill. -/
inductive FadeAct where
  | term
  | spawn
deriving DecidableEq

def staleKillActs (win : WindowInfo) : List FadeAct :=
  if win.fade_active = true ∧ 0 < win.fade_pid then [FadeAct.term] else []

def fadeActsOf (env : FadeEnv) (seamless : Bool) (nextFile : Option String)
    (win : WindowInfo) : List FadeAct :=
  if seamless = false then []
  else if (fade_after_stale_terminate env win).window = 0 ∨ nextFile = none then
    staleKillActs win
  else if env.scriptOk = false then staleKillActs win
  else if 0 < env.forkRes then staleKillActs win ++ [FadeAct.spawn, FadeAct.term]
  else staleKillActs win

/- Number of live preload processes after one fade event: a spawn
   creates one, a terminate kills the tracked one when there is one
   (Nat subtraction floors at zero, matching the guarded kill). -/
def stepLive (n : Nat) : FadeAct → Nat
  | FadeAct.term => n - 1
  | FadeAct.spawn => n + 1

/- Largest number of simultaneously live preload processes reached at
   any point while executing an event list from `n` live ones. -/
def maxLive (n : Nat) : List FadeAct → Nat
  | [] => n
  | a :: r => max n (maxLive (stepLive n a) r)

/- One attempt of the inner X event loop (motionwall.c lines
   1942-2005), entered with running = true.  An XNextEvent failure
   bumps the consecutive-error counter and, at MAX_CONSECUTIVE_ERRORS
   = 10, clears running and breaks; a successful event resets the
   counter to zero, counts against MAX_EVENTS_PER_CYCLE = 5, and is
   dispatched (DestroyNotify and a WM_PROTOCOLS close request clear
   running, which breaks the loop right after the switch). -/
inductive XEventKind where
  | destroyNotify
  | wmClose
  | configureNotify
  | screenChange
  | other
deriving DecidableEq

inductive EvResult where
  | err
  | ok (k : XEventKind)
deriving DecidableEq

/- Whether the running flag survives dispatching one successfully read
   event (switch at motionwall.c lines 1969-2002). -/
def handleEvent : XEventKind → Bool
  | XEventKind.destroyNotify => false
  | XEventKind.wmClose => false
  | _ => true

/- The drain loop over the pending events, returning the final
   consecutive-error counter and running flag. -/
def drainEvents (errors processed : Nat) : List EvResult → Nat × Bool
  | [] => (errors, true)
  | e :: rest =>
    if 5 ≤ processed then (errors, true)
    else
      match e with
      | EvResult.err =>
        if 10 ≤ errors + 1 then (errors + 1, false)
        else drainEvents (errors + 1) processed rest
      | EvResult.ok k =>
        if handleEvent k then drainEvents 0 (processed + 1) rest
        else (0, false)

/- Whether the coordination loop runs another iteration after a tick
   that drained `evs`: the while condition re-checks running
   (motionwall.c line 1926, and the break at line 2012) and the
   safety check at lines 2107-2110 breaks once the error counter has
   reached the maximum. -/
def loop_continues (errors : Nat) (evs : List EvResult) : Bool :=
  (drainEvents errors 0 evs).2 && decide ((drainEvents errors 0 evs).1 < 10)

/- One rand() call is consumed by monitor_playlist_next exactly when
   the window's playlist exists, has more than one item and is in
   shuffle mode. -/
def monRandDraws (win : WindowInfo) : Nat :=
  match win.monitor_playlist with
  | some mp => if 1 < mp.count ∧ mp.shuffle = true then 1 else 0
  | none => 0

/- Guard of the per-monitor branch of the seamless advance
   (motionwall.c line 2042): per-monitor content is on and this
   window's playlist has more than one item. -/
def monitor_multi (cfg : Config) (win : WindowInfo) : Bool :=
  cfg.per_monitor_content &&
    (match win.monitor_playlist with
     | some mp => decide (1 < mp.count)
     | none => false)

def monCurrentPath (win : WindowInfo) : Option String :=
  match win.monitor_playlist with
  | some mp => some (mp.paths mp.current)
  | none => none

/- Next-file computation for one window in the seamless branch of the
   playlist timer (motionwall.c lines 2037-2062): the per-monitor
   playlist is advanced in place and its new head used, or - when the
   global playlist has more than one item - a next index is computed
   (fresh rand() draw under shuffle, cyclic successor otherwise)
   WITHOUT updating the global current index.  Returns the chosen
   file, the updated window and the next unused draw number. -/
def seamless_next_file (cfg : Config) (rng : Nat → Nat) (k : Nat)
    (win : WindowInfo) : Option String × WindowInfo × Nat :=
  if monitor_multi cfg win then
    let w := monitor_playlist_next (rng k) win
    (monCurrentPath w, w, k + monRandDraws win)
  else if 1 < cfg.media_playlist.count then
    if cfg.media_playlist.shuffle = true then
      (some (cfg.media_playlist.paths (rng k % cfg.media_playlist.count)), win, k + 1)
    else
      (some (cfg.media_playlist.paths
        ((cfg.media_playlist.current + 1) % cfg.media_playlist.count)), win, k)
  else (none, win, k)

/- The seamless for-loop over all windows (motionwall.c lines
   2037-2063), threading the rand() draw counter; each window's chosen
   file is handed to start_fade_transition, whose state effects are
   modelled separately, so here the targeted files are collected. -/
def seamless_go (cfg : Config) (rng : Nat → Nat) (k : Nat) :
    List WindowInfo → List (Option String) × List WindowInfo × Nat
  | [] => ([], [], k)
  | w :: ws =>
    let r := seamless_next_file cfg rng k w
    let rest := seamless_go cfg rng r.2.2 ws
    (r.1 :: rest.1, r.2.1 :: rest.2.1, rest.2.2)

/- The whole seamless playlist-switch tick: per-window transitions,
   then - unless per-monitor content is on - one global playlist_next
   (motionwall.c lines 2066-2068).  Returns the per-window target
   files and the updated configuration. -/
def seamless_advance (cfg : Config) (rng : Nat → Nat) :
    List (Option String) × Config :=
  let r := seamless_go cfg rng 0 cfg.windows
  let cfg1 : Config := { cfg with windows := r.2.1 }
  if cfg.per_monitor_content = false then
    (r.1, { cfg1 with media_playlist := playlist_next (rng r.2.2) cfg1.media_playlist })
  else (r.1, cfg1)

/- Per-monitor advances of the non-seamless branch (motionwall.c lines
   2074-2077), threading the draw counter. -/
def advance_monitors (rng : Nat → Nat) (k : Nat) :
    List WindowInfo → List WindowInfo × Nat
  | [] => ([], k)
  | w :: ws =>
    let rest := advance_monitors rng (k + monRandDraws w) ws
    (monitor_playlist_next (rng k) w :: rest.1, rest.2)

/- The non-seamless (terminate-then-respawn) playlist-switch tick
   (motionwall.c lines 2070-2087): terminate_all_players over every
   window, then either every per-monitor playlist or the global
   playlist advances; the subsequent start_media_player calls pick
   their file via selectFile from the state this returns. -/
def normal_advance (sa fa : Bool) (cfg : Config) (rng : Nat → Nat) : Config :=
  let ws := cfg.windows.map fun w =>
    terminate_fade_process fa (terminate_player sa w)
  if cfg.per_monitor_content = true then
    { cfg with windows := (advance_monitors rng 0 ws).1 }
  else
    { cfg with windows := ws,
               media_playlist := playlist_next (rng 0) cfg.media_playlist }

/- The reachable-state invariant of the primary player slot: the
   active flag and a positive recorded pid always go together. -/
def player_slot_ok (w : WindowInfo) : Prop :=
  w.player_active = true ↔ 0 < w.player_pid

/- Concrete states used to exercise the theorems below. -/

def plW : Playlist :=
  { paths := fun n => toString n, count := 3, current := 1, duration := 10,
    shuffle := false, loop := true }

def plS : Playlist :=
  { paths := fun _ => "solo.mp4", count := 1, current := 0, duration := 5,
    shuffle := true, loop := false }

def win0 : WindowInfo :=
  { window := 1, monitor_id := 0, x := 0, y := 0, width := 1920, height := 1080,
    player_pid := 0, fade_pid := 0, player_active := false, fade_active := false,
    player_start_time := 0, needs_resize := false, monitor_playlist := none,
    playlist_index := 0 }

def winS : WindowInfo := { win0 with monitor_playlist := some plS }

def winP : WindowInfo :=
  { win0 with player_pid := 42, player_active := true, player_start_time := 50 }

def winF : WindowInfo := { win0 with fade_pid := 5, fade_active := true }

def probe0 : ProcProbe :=
  { killResult := KillZeroResult.permDenied, exeReadable := false,
    exeMatches := false, cmdlineReadable := false, cmdlineMatches := false }

def plG : Playlist :=
  { paths := fun n => if n = 0 then "a.mp4" else "b.mp4", count := 2,
    current := 0, duration := 10, shuffle := true, loop := true }

def plGN : Playlist := { plG with shuffle := false }

def cfg0 : Config :=
  { multi_monitor := true, seamless_transitions := true,
    per_monitor_content := false, playlist_mode := true, media_playlist := plG,
    windows := [win0, win0] }

def cfgNS : Config := { cfg0 with media_playlist := plGN }

def rng0 : Nat → Nat := fun n => n

def env0 : SupEnv :=
  { healthy := fun _ => true, stillAlive := false, forkRes := 7, now := 100 }

def fenv0 : FadeEnv :=
  { scriptOk := true, forkRes := 9, newPid := some 11, stillAlive := false,
    fadeStillAlive := false, now := 100 }

def monC1 : MonitorInfo :=
  { name := "HDMI-1", x := 0, y := 0, width := 1920, height := 1080,
    primary := true, connected := false }

def msOld : MonitorSetup :=
  { monitors := fun _ => monC1, count := 1, primary_index := 0 }

def msNew : MonitorSetup :=
  { monitors := fun _ => { monC1 with connected := true }, count := 1,
    primary_index := 0 }

/- Theorems. -/

theorem playlist_next_count (rng : Nat) (pl : Playlist) :
    (playlist_next rng pl).count = pl.count := by
  unfold playlist_next; split
  · rfl
  · split <;> rfl

theorem playlist_next_paths (rng : Nat) (pl : Playlist) :
    (playlist_next rng pl).paths = pl.paths := by
  unfold playlist_next; split
  · rfl
  · split <;> rfl

theorem playlist_next_shuffle (rng : Nat) (pl : Playlist) :
    (playlist_next rng pl).shuffle = pl.shuffle := by
  unfold playlist_next; split
  · rfl
  · split <;> rfl

theorem playlist_iter_small (rng : Nat → Nat) (n : Nat) (pl : Playlist)
    (h : pl.count ≤ 1) : playlist_iter rng n pl = pl := by
  induction n with
  | zero => rfl
  | succ n ih => simp [playlist_iter, ih, playlist_next, h]

theorem playlist_next_step (rng : Nat) (pl : Playlist) (h1 : pl.shuffle = false)
    (h2 : 1 < pl.count) :
    playlist_next rng pl = { pl with current := (pl.current + 1) % pl.count } := by
  unfold playlist_next
  rw [if_neg (by omega), if_neg (by simp [h1])]

theorem playlist_iter_mod (rng : Nat → Nat) (n : Nat) (pl : Playlist)
    (h1 : pl.shuffle = false) (h2 : 1 < pl.count) (h3 : pl.current < pl.count) :
    playlist_iter rng n pl = { pl with current := (pl.current + n) % pl.count } := by
  induction n with
  | zero =>
    simp [playlist_iter, Nat.mod_eq_of_lt h3]
  | succ n ih =>
    rw [playlist_iter, ih,
      playlist_next_step (rng n) { pl with current := (pl.current + n) % pl.count }
        (by simpa using h1) (by simpa using h2)]
    simp [Nat.mod_add_mod, Nat.add_assoc]

/-- Claim C4: for every global playlist with shuffle = false and any
starting index in [0, count), applying playlist_next exactly count
times returns the playlist (in particular its current index) to its
starting value: the advance is cyclic. -/
theorem playlist_next_cyclic (rng : Nat → Nat) (pl : Playlist)
    (hsh : pl.shuffle = false) (hcur : pl.current < pl.count) :
    playlist_iter rng pl.count pl = pl := by
  by_cases h : pl.count ≤ 1
  · exact playlist_iter_small rng _ pl h
  · rw [playlist_iter_mod rng pl.count pl hsh (by omega) hcur]
    simp [Nat.add_mod_right, Nat.mod_eq_of_lt hcur]

theorem playlist_next_cyclic_witness :
    plW.shuffle = false ∧ plW.current < plW.count ∧
      playlist_iter rng0 plW.count plW = plW :=
  ⟨rfl, by decide, playlist_next_cyclic rng0 plW rfl (by decide)⟩

/-- Claim C5: for every playlist (global or per-monitor) whose item
count is at most 1, the advance operation (playlist_next /
monitor_playlist_next) is a no-op leaving the playlist and window
state entirely unchanged, whatever the shuffle flag (and regardless of
elapsed duration, which the advance never reads). -/
theorem playlist_advance_noop_small (rng : Nat) (pl : Playlist) (win : WindowInfo) :
    (pl.count ≤ 1 → playlist_next rng pl = pl) ∧
    (win.monitor_playlist = none → monitor_playlist_next rng win = win) ∧
    (∀ mp, win.monitor_playlist = some mp → mp.count ≤ 1 →
      monitor_playlist_next rng win = win) := by
  refine ⟨fun h => by simp [playlist_next, h], fun h => ?_, fun mp hm hc => ?_⟩
  · simp [monitor_playlist_next, h]
  · simp [monitor_playlist_next, hm, hc]

theorem playlist_advance_noop_small_witness :
    plS.count ≤ 1 ∧ playlist_next 3 plS = plS ∧
      winS.monitor_playlist = some plS ∧ monitor_playlist_next 3 winS = winS :=
  ⟨by decide, (playlist_advance_noop_small 3 plS winS).1 (by decide), rfl,
    (playlist_advance_noop_small 3 plS winS).2.2 plS rfl (by decide)⟩

/-- Claim C9 (implicit): every playlist advance, global or
per-monitor, keeps the current index inside [0, count) (0 ≤ is
inherent in the Nat index) for every playlist with count >= 1, in
both shuffle and non-shuffle modes, and changes no playlist field
other than current (paths, count, duration, shuffle, loop unchanged)
and no window field other than the advanced playlist. -/
theorem playlist_advance_preserves_bounds (rng : Nat) (pl : Playlist)
    (win : WindowInfo) :
    (pl.current < pl.count →
      (playlist_next rng pl).current < pl.count ∧
      (playlist_next rng pl).paths = pl.paths ∧
      (playlist_next rng pl).count = pl.count ∧
      (playlist_next rng pl).duration = pl.duration ∧
      (playlist_next rng pl).shuffle = pl.shuffle ∧
      (playlist_next rng pl).loop = pl.loop) ∧
    (win.monitor_playlist = none → monitor_playlist_next rng win = win) ∧
    (∀ mp, win.monitor_playlist = some mp → mp.current < mp.count →
      ∃ mp2, monitor_playlist_next rng win = { win with monitor_playlist := some mp2 } ∧
        mp2.current < mp2.count ∧ mp2.paths = mp.paths ∧ mp2.count = mp.count ∧
        mp2.duration = mp.duration ∧ mp2.shuffle = mp.shuffle ∧ mp2.loop = mp.loop) := by
  refine ⟨fun hcur => ?_, fun h => by simp [monitor_playlist_next, h],
    fun mp hm hcur => ?_⟩
  · unfold playlist_next
    split
    · exact ⟨hcur, rfl, rfl, rfl, rfl, rfl⟩
    · next hle =>
      split
      · exact ⟨Nat.mod_lt _ (by omega), rfl, rfl, rfl, rfl, rfl⟩
      · exact ⟨Nat.mod_lt _ (by omega), rfl, rfl, rfl, rfl, rfl⟩
  · by_cases hc : mp.count ≤ 1
    · refine ⟨mp, ?_, hcur, rfl, rfl, rfl, rfl, rfl⟩
      simp only [monitor_playlist_next, hm, if_pos hc]
      rw [← hm]
    · by_cases hsh : mp.shuffle = true
      · refine ⟨{ mp with current := rng % mp.count }, ?_,
          Nat.mod_lt _ (by omega), rfl, rfl, rfl, rfl, rfl⟩
        simp only [monitor_playlist_next, hm, if_neg hc, if_pos hsh]
      · refine ⟨{ mp with current := (mp.current + 1) % mp.count }, ?_,
          Nat.mod_lt _ (by omega), rfl, rfl, rfl, rfl, rfl⟩
        simp only [monitor_playlist_next, hm, if_neg hc, if_neg hsh]

theorem playlist_advance_preserves_bounds_witness :
    plW.current < plW.count ∧ (playlist_next 2 plW).current < plW.count ∧
      (playlist_next 2 plW).count = plW.count :=
  ⟨by decide, ((playlist_advance_preserves_bounds 2 plW win0).1 (by decide)).1,
    ((playlist_advance_preserves_bounds 2 plW win0).1 (by decide)).2.2.1⟩

theorem get?_set_self {α : Type} (l : List α) (i : Nat) (a b : α)
    (h : l.get? i = some a) : (l.set i b).get? i = some b := by
  induction l generalizing i with
  | nil => simp at h
  | cons x xs ih =>
    cases i with
    | zero => simp
    | succ n => simpa using ih n (by simpa using h)

/-- Claim C1: for every window index in range, after terminate_player
returns, the process-table entry for that window's primary player is
cleared (player_pid = 0, player_active = false, player_start_time =
0), whatever the graceful-terminate and force-kill signals did (the
`sa` liveness-recheck oracle is universally quantified and never
affects the cleared state).  The hypotheses are the reachable-state
shape of a player slot: flag and positive pid go together, and an
inactive slot holds pid 0 and start time 0. -/
theorem terminate_player_clears_entry (sa : Bool) (ws : List WindowInfo)
    (i : Nat) (w : WindowInfo) (hw : ws.get? i = some w)
    (hinv : w.player_active = true ↔ 0 < w.player_pid)
    (hnn : 0 ≤ w.player_pid)
    (hst : w.player_active = false → w.player_start_time = 0) :
    ∃ w2, (terminate_player_at sa ws i).get? i = some w2 ∧
      w2.player_pid = 0 ∧ w2.player_active = false ∧ w2.player_start_time = 0 := by
  refine ⟨terminate_player sa w, ?_, ?_⟩
  · unfold terminate_player_at
    rw [hw]
    exact get?_set_self ws i w _ hw
  · unfold terminate_player
    split
    · exact ⟨rfl, rfl, rfl⟩
    · next hya =>
      have ha : w.player_active = false := by
        cases hb : w.player_active
        · rfl
        · exact absurd ⟨hb, hinv.mp hb⟩ hya
      have hp : w.player_pid = 0 := by
        rcases lt_or_eq_of_le hnn with hlt | heq
        · exact absurd (hinv.mpr hlt) (by simp [ha])
        · omega
      exact ⟨hp, ha, hst ha⟩

theorem terminate_player_clears_entry_witness :
    [winP].get? 0 = some winP ∧
    (winP.player_active = true ↔ 0 < winP.player_pid) ∧
    ∃ w2, (terminate_player_at true [winP] 0).get? 0 = some w2 ∧
      w2.player_pid = 0 ∧ w2.player_active = false ∧ w2.player_start_time = 0 :=
  ⟨rfl, by decide,
    terminate_player_clears_entry true [winP] 0 winP rfl (by decide) (by decide)
      (by decide)⟩

theorem player_slot_ok_terminate (sa : Bool) (w : WindowInfo)
    (h : player_slot_ok w) : player_slot_ok (terminate_player sa w) := by
  unfold terminate_player
  split
  · simp [player_slot_ok]
  · exact h

theorem player_slot_ok_spawn (env : SupEnv) (cfg : Config) (w : WindowInfo)
    (h : player_slot_ok w) : player_slot_ok (start_media_player_spawn env cfg w) := by
  unfold start_media_player_spawn
  cases hsel : selectFile cfg w
  · exact h
  · by_cases hw : w.window = 0
    · rw [if_pos hw]; exact h
    · by_cases hf : 0 < env.forkRes
      · rw [if_neg hw, if_pos hf]
        simp [player_slot_ok, hf]
      · rw [if_neg hw, if_neg hf]
        simp [player_slot_ok]

theorem player_slot_ok_smp (env : SupEnv) (cfg : Config) (w : WindowInfo)
    (h : player_slot_ok w) : player_slot_ok (start_media_player env cfg w) := by
  unfold start_media_player
  split
  · split
    · exact h
    · exact player_slot_ok_spawn env cfg _ (player_slot_ok_terminate _ _ h)
  · exact player_slot_ok_spawn env cfg _ h

theorem player_slot_ok_start_time (w : WindowInfo) (t : Int)
    (h : player_slot_ok w) :
    player_slot_ok { w with player_start_time := t } := h

theorem player_slot_ok_timeout (env : SupEnv) (cfg : Config) (w : WindowInfo)
    (h : player_slot_ok w) : player_slot_ok (timeout_check env cfg w) := by
  unfold timeout_check
  split
  · split
    · exact player_slot_ok_start_time _ _
        (player_slot_ok_smp env cfg _ (player_slot_ok_terminate _ _ h))
    · exact player_slot_ok_start_time _ _ h
  · exact h

theorem player_slot_ok_restart (env : SupEnv) (cfg : Config) (w : WindowInfo)
    (h : player_slot_ok w) : player_slot_ok (restart_phase env cfg w) := by
  unfold restart_phase
  split
  · split
    · exact player_slot_ok_smp env cfg _ (by simp [player_slot_ok])
    · split
      · have := player_slot_ok_smp env cfg _ (player_slot_ok_terminate env.stillAlive w h)
        simpa [player_slot_ok] using this
      · exact h
  · split
    · exact player_slot_ok_smp env cfg _ h
    · exact h

theorem player_slot_ok_carp (env : SupEnv) (cfg : Config) (w : WindowInfo)
    (h : player_slot_ok w) : player_slot_ok (check_and_restart_player env cfg w) := by
  unfold check_and_restart_player
  split
  · exact h
  · exact player_slot_ok_timeout env cfg _ (player_slot_ok_restart env cfg _ h)

theorem player_fields_tfp (sa : Bool) (w : WindowInfo) :
    (terminate_fade_process sa w).player_active = w.player_active ∧
    (terminate_fade_process sa w).player_pid = w.player_pid := by
  unfold terminate_fade_process
  split <;> exact ⟨rfl, rfl⟩

theorem player_slot_ok_tfp (sa : Bool) (w : WindowInfo)
    (h : player_slot_ok w) : player_slot_ok (terminate_fade_process sa w) := by
  unfold terminate_fade_process
  split <;> exact h

theorem player_slot_ok_promote (env : FadeEnv) (w : WindowInfo)
    (h : player_slot_ok w) : player_slot_ok (fade_promote env w) := by
  rcases hnp : env.newPid with _ | np
  · simpa [fade_promote, hnp] using h
  · by_cases hpos : 0 < np
    · simp only [fade_promote, hnp]
      rw [if_pos hpos]
      simp [player_slot_ok, hpos]
    · simp only [fade_promote, hnp]
      rw [if_neg hpos]
      exact h

theorem player_slot_ok_fade (env : FadeEnv) (seamless : Bool)
    (nf : Option String) (w : WindowInfo) (h : player_slot_ok w) :
    player_slot_ok (start_fade_transition env seamless nf w) := by
  have hstale : player_slot_ok (fade_after_stale_terminate env w) := by
    unfold fade_after_stale_terminate
    split
    · exact player_slot_ok_tfp _ _ h
    · exact h
  unfold start_fade_transition
  split_ifs
  · exact h
  · exact hstale
  · exact hstale
  · exact player_slot_ok_tfp _ _ (player_slot_ok_promote _ _ hstale)
  · exact hstale

/-- Claim C10 (implicit): every operation that touches a window's
primary-player slot - window-slot initialisation in
create_window_for_monitor, start_media_player, terminate_player,
check_and_restart_players and start_fade_transition - preserves the
invariant player_active = true iff player_pid > 0: flag and pid are
set together on spawn/promotion and cleared together on termination,
death or fork failure. -/
theorem player_slot_invariant_preserved (env : SupEnv) (fenv : FadeEnv)
    (cfg : Config) (sa seamless : Bool) (nf : Option String) (w : WindowInfo)
    (monId mx my : Int) (mw mh created : Nat)
    (h : player_slot_ok w) :
    player_slot_ok (init_window_info monId mx my mw mh created) ∧
    player_slot_ok (start_media_player env cfg w) ∧
    player_slot_ok (terminate_player sa w) ∧
    player_slot_ok (check_and_restart_player env cfg w) ∧
    player_slot_ok (start_fade_transition fenv seamless nf w) :=
  ⟨by simp [player_slot_ok, init_window_info],
    player_slot_ok_smp env cfg w h,
    player_slot_ok_terminate sa w h,
    player_slot_ok_carp env cfg w h,
    player_slot_ok_fade fenv seamless nf w h⟩

theorem player_slot_invariant_preserved_witness :
    player_slot_ok winP ∧
    (player_slot_ok (init_window_info 0 0 0 1920 1080 1) ∧
     player_slot_ok (start_media_player env0 cfg0 winP) ∧
     player_slot_ok (terminate_player false winP) ∧
     player_slot_ok (check_and_restart_player env0 cfg0 winP) ∧
     player_slot_ok (start_fade_transition fenv0 true (some "n.mp4") winP)) :=
  ⟨by unfold player_slot_ok; decide,
    player_slot_invariant_preserved env0 fenv0 cfg0 false true (some "n.mp4")
      winP 0 0 0 1920 1080 1 (by unfold player_slot_ok; decide)⟩

/-- Claim C3: for every pid of an existing process, is_process_healthy
returns true even when the identity check (executable path or command
line naming a known player binary) fails - the identity probe oracles
are universally quantified and never force a false - and it returns
false only when the process does not exist (kill(pid,0) fails with
ESRCH).  The hypothesis restricts to positive pids, the only ones that
can name an existing process. -/
theorem healthy_iff_process_exists (pid : Int) (p : ProcProbe)
    (hpid : 0 < pid) :
    (processExists p → is_process_healthy pid p = true) ∧
    (is_process_healthy pid p = false → ¬ processExists p) := by
  unfold is_process_healthy processExists
  rw [if_neg (by omega)]
  cases hk : p.killResult <;> simp

theorem healthy_iff_process_exists_witness :
    (0:Int) < 5 ∧ probe0.exeMatches = false ∧ probe0.cmdlineMatches = false ∧
      is_process_healthy 5 probe0 = true :=
  ⟨by decide, rfl, rfl,
    (healthy_iff_process_exists 5 probe0 (by decide)).1
      (by unfold processExists; decide)⟩

/-- Claim C6 as stated is false on the code: check_monitor_changes
never reads the connected flag, so two snapshots of equal counts and
positionally equal geometry that differ only in a monitor's
connectivity are reported as unchanged, while the claim's iff demands
changed.  (In snapshots the program itself builds, every recorded
monitor has connected = true, which is why the code never compares
it.) -/
theorem monitor_diff_ignores_connectivity :
    spec_monitor_diff msOld msNew ∧ check_monitor_changes msOld msNew = false := by
  constructor
  · exact Or.inr ⟨0, by decide, Or.inr (Or.inr (Or.inr (Or.inr (by decide))))⟩
  · decide

/-- Claim C6 (amended): check_monitor_changes returns true if and only
if the old and new monitor counts differ, or some positionally matched
monitor differs in geometry (x, y, width, height); connectivity (like
name and primary flag) is not compared, and a positional reordering of
otherwise-identical monitors - monitors equal in geometry - is
reported as unchanged, the iff's right side being invariant under such
a reordering. -/
theorem monitor_diff_characterization (old new2 : MonitorSetup) :
    check_monitor_changes old new2 = true ↔
      (old.count ≠ new2.count ∨ ∃ i, i < new2.count ∧
        ((old.monitors i).x ≠ (new2.monitors i).x ∨
         (old.monitors i).y ≠ (new2.monitors i).y ∨
         (old.monitors i).width ≠ (new2.monitors i).width ∨
         (old.monitors i).height ≠ (new2.monitors i).height)) := by
  unfold check_monitor_changes
  by_cases hc : old.count ≠ new2.count
  · simp [hc]
  · rw [if_neg hc]
    simp only [List.any_eq_true, List.mem_range, monGeomDiff, Bool.or_eq_true,
      bne_iff_ne, or_assoc]
    constructor
    · rintro ⟨i, hi, hd⟩
      exact Or.inr ⟨i, hi, hd⟩
    · rintro (h | ⟨i, hi, hd⟩)
      · exact absurd h hc
      · exact ⟨i, hi, hd⟩

/-- Claim C7: at most one preloaded (fade) process exists per surface
at any time: along every start_fade_transition call the number of live
preload processes never exceeds one (a new call first terminates any
stale preload before spawning a new one), and the stale cleanup really
clears fade_pid and fade_active.  The hypothesis is the fade-slot
analogue of the player-slot invariant: the flag and a positive pid go
together. -/
theorem fade_preload_at_most_one (env : FadeEnv) (seamless : Bool)
    (nf : Option String) (win : WindowInfo)
    (hinv : win.fade_active = true ↔ 0 < win.fade_pid) :
    maxLive (if win.fade_active = true then 1 else 0)
      (fadeActsOf env seamless nf win) ≤ 1 ∧
    (win.fade_active = true →
      (fade_after_stale_terminate env win).fade_active = false ∧
      (fade_after_stale_terminate env win).fade_pid = 0) := by
  constructor
  · by_cases ha : win.fade_active = true
    · have hp := hinv.mp ha
      have ht : staleKillActs win = [FadeAct.term] := by
        simp [staleKillActs, ha, hp]
      unfold fadeActsOf
      split_ifs <;> simp [ht, ha, maxLive, stepLive]
    · have ht : staleKillActs win = [] := by simp [staleKillActs, ha]
      have ha0 : (if win.fade_active = true then 1 else 0) = 0 := by simp [ha]
      unfold fadeActsOf
      split_ifs <;> simp [ht, ha0, maxLive, stepLive]
  · intro ha
    have hp := hinv.mp ha
    unfold fade_after_stale_terminate terminate_fade_process
    rw [if_pos ha, if_pos ⟨ha, hp⟩]
    exact ⟨rfl, rfl⟩

theorem fade_preload_at_most_one_witness :
    (winF.fade_active = true ↔ 0 < winF.fade_pid) ∧
    maxLive (if winF.fade_active = true then 1 else 0)
      (fadeActsOf fenv0 true (some "n.mp4") winF) ≤ 1 :=
  ⟨by decide,
    (fade_preload_at_most_one fenv0 true (some "n.mp4") winF (by decide)).1⟩

theorem drain_aux (evs : List EvResult) :
    ∀ (errors processed : Nat), errors < 10 →
      10 ≤ (drainEvents errors processed evs).1 →
      (drainEvents errors processed evs).2 = false := by
  induction evs with
  | nil =>
    intro errors processed h1 h2
    simp only [drainEvents] at h2
    omega
  | cons e rest ih =>
    intro errors processed h1 h2
    by_cases hp : 5 ≤ processed
    · simp only [drainEvents, if_pos hp] at h2
      omega
    · cases e with
      | err =>
        by_cases h10 : 10 ≤ errors + 1
        · simp only [drainEvents, if_neg hp, if_pos h10]
        · simp only [drainEvents, if_neg hp, if_neg h10] at h2 ⊢
          exact ih (errors + 1) processed (by omega) h2
      | ok k =>
        simp only [drainEvents, if_neg hp] at h2 ⊢
        cases hek : handleEvent k
        · rw [hek] at h2
          simp at h2
        · rw [hek] at h2
          simp at h2 ⊢
          exact ih 0 (processed + 1) (by omega) h2

/-- Claim C8: the coordination loop never keeps running once the count
of consecutive XNextEvent errors reaches MAX_CONSECUTIVE_ERRORS = 10:
within the event drain, reaching the threshold from a sane
(below-threshold) count clears the running flag; in any case the
safety check makes the loop stop continuing once the final count is at
the threshold (a full shutdown follows loop exit); and processing any
successful event resets the error count to zero. -/
theorem consecutive_errors_abort (errors : Nat) (evs : List EvResult) :
    (errors < 10 → 10 ≤ (drainEvents errors 0 evs).1 →
      (drainEvents errors 0 evs).2 = false) ∧
    (10 ≤ (drainEvents errors 0 evs).1 → loop_continues errors evs = false) ∧
    (∀ (p : Nat) (k : XEventKind), p < 5 →
      (drainEvents errors p [EvResult.ok k]).1 = 0) := by
  refine ⟨fun h1 h2 => drain_aux evs errors 0 h1 h2, fun h2 => ?_, fun p k hp => ?_⟩
  · unfold loop_continues
    have hlt : ¬ ((drainEvents errors 0 evs).1 < 10) := by omega
    simp [hlt]
  · simp only [drainEvents, if_neg (by omega : ¬ 5 ≤ p)]
    cases hek : handleEvent k <;> simp [hek, drainEvents]

theorem consecutive_errors_abort_witness :
    (9:Nat) < 10 ∧ 10 ≤ (drainEvents 9 0 [EvResult.err]).1 ∧
    (drainEvents 9 0 [EvResult.err]).2 = false ∧
    loop_continues 9 [EvResult.err] = false ∧
    (drainEvents 9 0 [EvResult.ok XEventKind.other]).1 = 0 :=
  ⟨by decide, by decide,
    (consecutive_errors_abort 9 [EvResult.err]).1 (by decide) (by decide),
    (consecutive_errors_abort 9 [EvResult.err]).2.1 (by decide),
    (consecutive_errors_abort 9 [EvResult.err]).2.2 0 XEventKind.other (by decide)⟩

theorem seamless_go_global (cfg : Config) (rng : Nat → Nat)
    (hpm : cfg.per_monitor_content = false)
    (hsh : cfg.media_playlist.shuffle = false)
    (hcnt : 1 < cfg.media_playlist.count) :
    ∀ (ws : List WindowInfo) (k : Nat),
      seamless_go cfg rng k ws =
        (ws.map (fun _ => some (cfg.media_playlist.paths
          ((cfg.media_playlist.current + 1) % cfg.media_playlist.count))),
         ws, k) := by
  intro ws
  induction ws with
  | nil => intro k; simp [seamless_go]
  | cons w rest ih =>
    intro k
    have hmm : monitor_multi cfg w = false := by
      unfold monitor_multi
      rw [hpm]
      simp
    simp [seamless_go, seamless_next_file, hmm, hcnt, hsh, ih]

/-- Claim C2 (amended): with multi-monitor enabled, per-surface
content disabled and one shared global playlist of more than one item,
a playlist advance targets every surface's player with the content
item at the single shared current index in the terminate-then-respawn
path regardless of shuffle, and in the seamless-transition path when
shuffle is disabled: after the advance each window's player is aimed
at the item the shared index then designates.  (With shuffle enabled
the seamless path draws an independent random index per surface - see
the counterexample - which is the only part of the original claim that
fails.) -/
theorem shared_playlist_advance_same_index (cfg : Config) (rng : Nat → Nat)
    (sa fa : Bool) (hm : cfg.multi_monitor = true)
    (hpm : cfg.per_monitor_content = false)
    (hcnt : 1 < cfg.media_playlist.count) :
    (cfg.media_playlist.shuffle = false →
      (seamless_advance cfg rng).2.media_playlist.current =
          (cfg.media_playlist.current + 1) % cfg.media_playlist.count ∧
        ∀ f ∈ (seamless_advance cfg rng).1,
          f = some ((seamless_advance cfg rng).2.media_playlist.paths
            ((seamless_advance cfg rng).2.media_playlist.current))) ∧
    (∀ w ∈ (normal_advance sa fa cfg rng).windows,
      selectFile (normal_advance sa fa cfg rng) w =
        some ((normal_advance sa fa cfg rng).media_playlist.paths
          ((normal_advance sa fa cfg rng).media_playlist.current))) := by
  constructor
  · intro hsh
    have hgo := seamless_go_global cfg rng hpm hsh hcnt cfg.windows 0
    have hstep := playlist_next_step (rng 0) cfg.media_playlist hsh hcnt
    simp only [seamless_advance, hgo, if_pos hpm, hstep]
    constructor
    · trivial
    · intro f hf
      simp only [List.mem_map] at hf
      rcases hf with ⟨w, hw, rfl⟩
      rfl
  · intro w hw
    have hnot : ¬ (cfg.per_monitor_content = true) := by simp [hpm]
    simp only [normal_advance, if_neg hnot]
    have hcount : 0 < (playlist_next (rng 0) cfg.media_playlist).count := by
      rw [playlist_next_count]
      omega
    cases hmp : w.monitor_playlist with
    | none => simp [selectFile, hmp, hcount]
    | some mp => simp [selectFile, hmp, hcount, hpm]

theorem shared_playlist_advance_same_index_witness :
    cfgNS.multi_monitor = true ∧ cfgNS.per_monitor_content = false ∧
    1 < cfgNS.media_playlist.count ∧ cfgNS.media_playlist.shuffle = false ∧
    (seamless_advance cfgNS rng0).2.media_playlist.current =
      (cfgNS.media_playlist.current + 1) % cfgNS.media_playlist.count :=
  ⟨rfl, rfl, by decide, rfl,
    ((shared_playlist_advance_same_index cfgNS rng0 false false rfl rfl
      (by decide)).1 rfl).1⟩

/-- Claim C2 as stated is false on the code: with multi-monitor
enabled, per-surface content disabled and one shared global playlist
(cfg0: two windows, two items, shuffle on), the seamless-transition
path of a playlist advance draws an independent random index per
surface, so the two surfaces are targeted at different items (and not
at the item of the final shared index): the advance does not affect
every surface with the same playlist index. -/
theorem seamless_shuffle_breaks_shared_index :
    cfg0.multi_monitor = true ∧ cfg0.per_monitor_content = false ∧
    1 < cfg0.media_playlist.count ∧
    (seamless_advance cfg0 rng0).1 = [some "a.mp4", some "b.mp4"] ∧
    ¬ (∀ f ∈ (seamless_advance cfg0 rng0).1,
        f = some ((seamless_advance cfg0 rng0).2.media_playlist.paths
          ((seamless_advance cfg0 rng0).2.media_playlist.current))) := by
  refine ⟨rfl, rfl, by decide, ?_, ?_⟩
  · decide
  · decide
